import Mathlib

/-!
Verification of the opensea-stream event-schema and topic-addressing layer.

`src/lib.rs` declares `mod protocol;` and `pub mod schema;`, but the files
`protocol.rs` and `schema.rs` are not present in the sources; the types and
functions they provide (`Network`, `Collection`, `Event`, `Payload`,
`StreamEvent`, the topic/discriminator encoders and the message decoder) are
therefore modelled from the specification.  The functions `client`,
`subscribe_to` and `subscribe_to_with_config` are embedded from `src/lib.rs`;
the external transport engine (`phyllo`) that they delegate to is modelled
from the specification's description of that collaborator.
-/

namespace OpenSeaStream

/-- Modelled from the spec: `Network` is the enumerated value {Mainnet, Testnet}
(the defining file `protocol.rs` is missing from the sources). -/
inductive Network where
  | Mainnet
  | Testnet
deriving DecidableEq, Fintype

/-- Modelled from the spec: the chain identifier of a `Contract` subscription
target (an EVM chain name; non-EVM ledgers are out of scope). -/
inductive Chain where
  | Ethereum
  | Polygon
  | Klaytn
  | Arbitrum
deriving DecidableEq

/-- Modelled from the spec: the wire form of a chain identifier, used inside
the canonical `chain:address` part of a contract topic. -/
def Chain.toWire : Chain → String
  | .Ethereum => "ethereum"
  | .Polygon => "polygon"
  | .Klaytn => "klaytn"
  | .Arbitrum => "arbitrum"

/-- Modelled from the spec: a subscription target, one of All (every collection
on the network), Collection(slug), Contract(chain, address)
(the defining file `protocol.rs` is missing from the sources). -/
inductive Collection where
  | All
  | Collection (slug : String)
  | Contract (chain : Chain) (address : String)
deriving DecidableEq

/-- Modelled from the spec: `encode_topic(collection) -> topic string`;
`All` is a fixed sentinel, `Collection(slug)` is a deterministic prefix
concatenated with the slug used verbatim, `Contract(chain, address)` is a
deterministic prefix concatenated with the canonical `chain:address` form
(channel topic grammar: sentinel; collection-prefix:slug;
contract-prefix:chain:address). -/
def encode_topic : Collection → String
  | .All => "*"
  | .Collection slug => "collection:" ++ slug
  | .Contract chain address => "contract:" ++ (chain.toWire ++ (":" ++ address))

/-- Modelled from the spec: the enumerated message-kind discriminator, with an
"all events" wildcard used only for subscribing
(the defining file `protocol.rs` is missing from the sources). -/
inductive Event where
  | ItemListed
  | ItemSold
  | ItemCancelled
  | ItemTransferred
  | ItemReceivedOffer
  | CollectionOffer
  | TraitOffer
  | ItemMetadataUpdated
  | All
deriving DecidableEq, Fintype

/-- Modelled from the spec: `encode_event(event) -> discriminator string`, a
lookup table over the event kinds; the wildcard encodes to the subscribe-all
sentinel. -/
def encode_event : Event → String
  | .ItemListed => "item-listed"
  | .ItemSold => "item-sold"
  | .ItemCancelled => "item-cancelled"
  | .ItemTransferred => "item-transferred"
  | .ItemReceivedOffer => "item-received-offer"
  | .CollectionOffer => "collection-offer"
  | .TraitOffer => "trait-offer"
  | .ItemMetadataUpdated => "item-metadata-updated"
  | .All => "*"

/-- A left factor of a string append can be cancelled. -/
theorem string_append_left_cancel (p : String) {s t : String}
    (h : p ++ s = p ++ t) : s = t := by
  have hd : p.data ++ s.data = p.data ++ t.data := congrArg String.data h
  have h2 := List.append_cancel_left hd
  cases s; cases t; exact congrArg String.mk h2

/-- Two strings disagreeing at some character position are distinct. -/
theorem string_ne_of_get? (i : Nat) (o₁ o₂ : Option Char) {s t : String}
    (h₁ : s.data.get? i = o₁) (h₂ : t.data.get? i = o₂) (hne : o₁ ≠ o₂) : s ≠ t := by
  intro hst
  apply hne
  rw [← h₁, ← h₂, hst]

/-- C3: `encode_topic` is a deterministic and injective function of the
`Collection` value: distinct targets (All, Collection(slug), Contract(chain,
address)) never collide on the same topic string; in particular a collection
topic never equals a contract topic. -/
theorem encode_topic_injective (c₁ c₂ : Collection)
    (h : encode_topic c₁ = encode_topic c₂) : c₁ = c₂ := by
  cases c₁ <;> cases c₂ <;> simp only [encode_topic] at h
  case All.All => rfl
  case All.Collection s =>
    exact absurd h (string_ne_of_get? 2 none (some 'l') rfl rfl (by decide))
  case All.Contract ch a =>
    cases ch <;>
      exact absurd h (string_ne_of_get? 2 none (some 'n') rfl rfl (by decide))
  case Collection.All s =>
    exact absurd h (string_ne_of_get? 2 (some 'l') none rfl rfl (by decide))
  case Collection.Collection s₁ s₂ =>
    rw [string_append_left_cancel "collection:" h]
  case Collection.Contract s ch a =>
    cases ch <;>
      exact absurd h (string_ne_of_get? 2 (some 'l') (some 'n') rfl rfl (by decide))
  case Contract.All ch a =>
    cases ch <;>
      exact absurd h (string_ne_of_get? 2 (some 'n') none rfl rfl (by decide))
  case Contract.Collection ch a s =>
    cases ch <;>
      exact absurd h (string_ne_of_get? 2 (some 'n') (some 'l') rfl rfl (by decide))
  case Contract.Contract ch₁ a₁ ch₂ a₂ =>
    cases ch₁ <;> cases ch₂ <;>
      first
        | (rw [string_append_left_cancel ":"
            (string_append_left_cancel _
              (string_append_left_cancel "contract:" h))])
        | exact absurd h (string_ne_of_get? 9 (some 'e') (some 'p') rfl rfl (by decide))
        | exact absurd h (string_ne_of_get? 9 (some 'e') (some 'k') rfl rfl (by decide))
        | exact absurd h (string_ne_of_get? 9 (some 'e') (some 'a') rfl rfl (by decide))
        | exact absurd h (string_ne_of_get? 9 (some 'p') (some 'e') rfl rfl (by decide))
        | exact absurd h (string_ne_of_get? 9 (some 'p') (some 'k') rfl rfl (by decide))
        | exact absurd h (string_ne_of_get? 9 (some 'p') (some 'a') rfl rfl (by decide))
        | exact absurd h (string_ne_of_get? 9 (some 'k') (some 'e') rfl rfl (by decide))
        | exact absurd h (string_ne_of_get? 9 (some 'k') (some 'p') rfl rfl (by decide))
        | exact absurd h (string_ne_of_get? 9 (some 'k') (some 'a') rfl rfl (by decide))
        | exact absurd h (string_ne_of_get? 9 (some 'a') (some 'e') rfl rfl (by decide))
        | exact absurd h (string_ne_of_get? 9 (some 'a') (some 'p') rfl rfl (by decide))
        | exact absurd h (string_ne_of_get? 9 (some 'a') (some 'k') rfl rfl (by decide))

/-- Witness for C3 at a concrete pair of inputs. -/
theorem encode_topic_injective_witness :
    Collection.Collection "wandernauts" = Collection.Collection "wandernauts" :=
  encode_topic_injective (.Collection "wandernauts") (.Collection "wandernauts") rfl

/-- C4: `encode_event` is a total, injective lookup from `Event` values to
discriminator strings, and the wildcard encodes to a subscribe-all sentinel
distinct from the encoding of every concrete event. -/
theorem encode_event_injective_wildcard_distinct :
    (∀ e₁ e₂ : Event, encode_event e₁ = encode_event e₂ → e₁ = e₂)
  ∧ (∀ e : Event, e ≠ .All → encode_event .All ≠ encode_event e) := by
  decide

/-- Witness for C4 at concrete events. -/
theorem encode_event_injective_wildcard_distinct_witness :
    Event.ItemListed = Event.ItemListed
  ∧ encode_event .All ≠ encode_event .ItemSold :=
  ⟨encode_event_injective_wildcard_distinct.1 .ItemListed .ItemListed rfl,
   encode_event_injective_wildcard_distinct.2 .ItemSold (by decide)⟩

/-- Modelled from the spec: an untyped JSON body as delivered by the transport
(the raw message body handed to the decoder). -/
inductive Json where
  | null
  | bool (b : Bool)
  | num (n : Int)
  | str (s : String)
  | obj (fields : List (String × Json))

/-- Modelled from the spec: field record of an item-listed payload (token id,
monetary amount as decimal-safe string, ISO-8601 timestamp). -/
structure ItemListedData where
  item_id : String
  base_price : String
  listing_date : String
deriving DecidableEq

/-- Modelled from the spec: field record of an item-sold payload. -/
structure ItemSoldData where
  item_id : String
  sale_price : String
  transaction_hash : String
deriving DecidableEq

/-- Modelled from the spec: field record of an item-cancelled payload. -/
structure ItemCancelledData where
  item_id : String
  listing_date : String
  cancelled_date : String
deriving DecidableEq

/-- Modelled from the spec: field record of an item-transferred payload
(addresses as checksummed hex text). -/
structure ItemTransferredData where
  item_id : String
  from_address : String
  to_address : String
deriving DecidableEq

/-- Modelled from the spec: field record of an item-received-offer payload. -/
structure ItemReceivedOfferData where
  item_id : String
  offer_price : String
  expiration_date : String
deriving DecidableEq

/-- Modelled from the spec: field record of a collection-offer payload. -/
structure CollectionOfferData where
  collection_slug : String
  offer_price : String
  expiration_date : String
deriving DecidableEq

/-- Modelled from the spec: field record of a trait-offer payload. -/
structure TraitOfferData where
  collection_slug : String
  trait_name : String
  offer_price : String
deriving DecidableEq

/-- Modelled from the spec: field record of an item-metadata-updated payload. -/
structure ItemMetadataUpdatedData where
  item_id : String
  name : String
  image_url : String
deriving DecidableEq

/-- Modelled from the spec: the tagged union of event payloads, one variant per
non-wildcard `Event` value (the defining file `schema.rs` is missing from the
sources). -/
inductive Payload where
  | ItemListed (d : ItemListedData)
  | ItemSold (d : ItemSoldData)
  | ItemCancelled (d : ItemCancelledData)
  | ItemTransferred (d : ItemTransferredData)
  | ItemReceivedOffer (d : ItemReceivedOfferData)
  | CollectionOffer (d : CollectionOfferData)
  | TraitOffer (d : TraitOfferData)
  | ItemMetadataUpdated (d : ItemMetadataUpdatedData)
deriving DecidableEq

/-- Variant tag of a payload, as an `Event` value. -/
def Payload.tag : Payload → Event
  | .ItemListed _ => .ItemListed
  | .ItemSold _ => .ItemSold
  | .ItemCancelled _ => .ItemCancelled
  | .ItemTransferred _ => .ItemTransferred
  | .ItemReceivedOffer _ => .ItemReceivedOffer
  | .CollectionOffer _ => .CollectionOffer
  | .TraitOffer _ => .TraitOffer
  | .ItemMetadataUpdated _ => .ItemMetadataUpdated

/-- Modelled from the spec: the decoded envelope carrying the event
discriminator together with the matching payload variant. -/
structure StreamEvent where
  event : Event
  payload : Payload
deriving DecidableEq

/-- Modelled from the spec: decode outcomes for a message that does not parse:
an unrecognized discriminator (informational), or a malformed payload carrying
the offending discriminator and the raw body for diagnostics. -/
inductive DecodeOutcome where
  | UnknownDiscriminator
  | MalformedPayload (discriminator : String) (raw_body : Json)

/-- Modelled from the spec: read a required string-typed field out of a JSON
object's field list; `none` when the field is absent or not a string. -/
def getStr (fields : List (String × Json)) (key : String) : Option String :=
  match List.lookup key fields with
  | some (.str s) => some s
  | _ => none

/-- Modelled from the spec: parse the three required string fields of a payload
record, dropping all other fields silently. -/
def parse3 (fields : List (String × Json)) (k₁ k₂ k₃ : String)
    (mk : String → String → String → Payload) : Option Payload :=
  match getStr fields k₁, getStr fields k₂, getStr fields k₃ with
  | some a, some b, some c => some (mk a b c)
  | _, _, _ => none

/-- Modelled from the spec: attempt to parse a raw body into the field record
of the payload variant registered for an event kind; the wildcard has no
payload variant. -/
def parsePayload (e : Event) (body : Json) : Option Payload :=
  match body with
  | .obj fields =>
    match e with
    | .ItemListed =>
      parse3 fields "item_id" "base_price" "listing_date"
        (fun a b c => .ItemListed ⟨a, b, c⟩)
    | .ItemSold =>
      parse3 fields "item_id" "sale_price" "transaction_hash"
        (fun a b c => .ItemSold ⟨a, b, c⟩)
    | .ItemCancelled =>
      parse3 fields "item_id" "listing_date" "cancelled_date"
        (fun a b c => .ItemCancelled ⟨a, b, c⟩)
    | .ItemTransferred =>
      parse3 fields "item_id" "from_address" "to_address"
        (fun a b c => .ItemTransferred ⟨a, b, c⟩)
    | .ItemReceivedOffer =>
      parse3 fields "item_id" "offer_price" "expiration_date"
        (fun a b c => .ItemReceivedOffer ⟨a, b, c⟩)
    | .CollectionOffer =>
      parse3 fields "collection_slug" "offer_price" "expiration_date"
        (fun a b c => .CollectionOffer ⟨a, b, c⟩)
    | .TraitOffer =>
      parse3 fields "collection_slug" "trait_name" "offer_price"
        (fun a b c => .TraitOffer ⟨a, b, c⟩)
    | .ItemMetadataUpdated =>
      parse3 fields "item_id" "name" "image_url"
        (fun a b c => .ItemMetadataUpdated ⟨a, b, c⟩)
    | .All => none
  | _ => none

/-- Modelled from the spec: the required fields of each payload variant's
record (the wildcard has none). -/
def requiredFields : Event → List String
  | .ItemListed => ["item_id", "base_price", "listing_date"]
  | .ItemSold => ["item_id", "sale_price", "transaction_hash"]
  | .ItemCancelled => ["item_id", "listing_date", "cancelled_date"]
  | .ItemTransferred => ["item_id", "from_address", "to_address"]
  | .ItemReceivedOffer => ["item_id", "offer_price", "expiration_date"]
  | .CollectionOffer => ["collection_slug", "offer_price", "expiration_date"]
  | .TraitOffer => ["collection_slug", "trait_name", "offer_price"]
  | .ItemMetadataUpdated => ["item_id", "name", "image_url"]
  | .All => []

/-- The non-wildcard event kinds, i.e. those with a registered payload variant. -/
def concreteEvents : List Event :=
  [.ItemListed, .ItemSold, .ItemCancelled, .ItemTransferred,
   .ItemReceivedOffer, .CollectionOffer, .TraitOffer, .ItemMetadataUpdated]

/-- Modelled from the spec: look up the event kind registered for a wire
discriminator string. -/
def eventOfDiscriminator (d : String) : Option Event :=
  concreteEvents.find? (fun e => encode_event e == d)

/-- Modelled from the spec: `decode(discriminator, raw_body)`; an unregistered
discriminator yields `UnknownDiscriminator`, a parse failure yields
`MalformedPayload` with the offending discriminator and raw body, and success
builds the `StreamEvent` with the payload tag set from the matched arm. -/
def decode (discriminator : String) (raw_body : Json) :
    Except DecodeOutcome StreamEvent :=
  match eventOfDiscriminator discriminator with
  | none => .error .UnknownDiscriminator
  | some e =>
    match parsePayload e raw_body with
    | none => .error (.MalformedPayload discriminator raw_body)
    | some p => .ok ⟨e, p⟩

/-- A key found in the front part of an association list is still found after
appending further fields. -/
theorem lookup_append_of_some {l₁ l₂ : List (String × Json)} {k : String} {v : Json}
    (h : List.lookup k l₁ = some v) : List.lookup k (l₁ ++ l₂) = some v := by
  induction l₁ with
  | nil => exact absurd h (by simp)
  | cons p rest ih =>
    obtain ⟨a, b⟩ := p
    cases hk : (k == a) with
    | true => simp only [List.cons_append, List.lookup, hk] at h ⊢; exact h
    | false => simp only [List.cons_append, List.lookup, hk] at h ⊢; exact ih h

/-- Reading a required string field is unaffected by appending extra fields. -/
theorem getStr_append {fields extra : List (String × Json)} {k : String} {s : String}
    (h : getStr fields k = some s) : getStr (fields ++ extra) k = some s := by
  unfold getStr at h ⊢
  cases hl : List.lookup k fields with
  | none => rw [hl] at h; exact absurd h (by simp)
  | some v =>
    rw [hl] at h
    rw [lookup_append_of_some hl]
    exact h

/-- Inversion for a successful `parse3`. -/
theorem parse3_eq_some {fields : List (String × Json)} {k₁ k₂ k₃ : String}
    {mk : String → String → String → Payload} {p : Payload}
    (h : parse3 fields k₁ k₂ k₃ mk = some p) :
    ∃ a b c, getStr fields k₁ = some a ∧ getStr fields k₂ = some b
      ∧ getStr fields k₃ = some c ∧ p = mk a b c := by
  unfold parse3 at h
  split at h
  next a b c h₁ h₂ h₃ => exact ⟨a, b, c, h₁, h₂, h₃, (Option.some.inj h).symm⟩
  next => exact absurd h (by simp)

/-- Introduction for a successful `parse3`. -/
theorem parse3_eq_some_of {fields : List (String × Json)} {k₁ k₂ k₃ : String}
    {mk : String → String → String → Payload} {a b c : String}
    (h₁ : getStr fields k₁ = some a) (h₂ : getStr fields k₂ = some b)
    (h₃ : getStr fields k₃ = some c) :
    parse3 fields k₁ k₂ k₃ mk = some (mk a b c) := by
  unfold parse3
  rw [h₁, h₂, h₃]

/-- `parse3` fails whenever one of its required fields cannot be read. -/
theorem parse3_eq_none {fields : List (String × Json)} {k₁ k₂ k₃ : String}
    {mk : String → String → String → Payload}
    (h : getStr fields k₁ = none ∨ getStr fields k₂ = none ∨ getStr fields k₃ = none) :
    parse3 fields k₁ k₂ k₃ mk = none := by
  unfold parse3
  split
  next a b c h₁ h₂ h₃ => rcases h with h | h | h <;> simp_all
  next => rfl

/-- A successfully parsed payload carries the variant tag of the event kind it
was parsed for. -/
theorem parsePayload_tag {e : Event} {b : Json} {p : Payload}
    (h : parsePayload e b = some p) : p.tag = e := by
  unfold parsePayload at h
  cases b
  case obj fields =>
    cases e
    case All => exact Option.noConfusion h
    all_goals
      obtain ⟨a, b, c, _, _, _, rfl⟩ := parse3_eq_some h
    all_goals rfl
  all_goals exact Option.noConfusion h

/-- C1: every message successfully decoded by `decode` yields a `StreamEvent`
whose `event` discriminator field agrees with the variant tag of its payload;
the agreement is established at decode time from the matched arm. -/
theorem decode_discriminator_payload_agree (d : String) (b : Json) (ev : StreamEvent)
    (h : decode d b = .ok ev) : ev.payload.tag = ev.event := by
  unfold decode at h
  split at h
  next => exact absurd h (by simp)
  next e heq =>
    split at h
    next => exact absurd h (by simp)
    next p hp =>
      cases h
      exact parsePayload_tag hp

/-- Witness for C1 at a concretely decoded message. -/
theorem decode_discriminator_payload_agree_witness :
    (Payload.ItemListed ⟨"73", "1000", "2024-01-01T00:00:00Z"⟩).tag
      = Event.ItemListed :=
  decode_discriminator_payload_agree "item-listed"
    (.obj [("item_id", .str "73"), ("base_price", .str "1000"),
      ("listing_date", .str "2024-01-01T00:00:00Z")])
    ⟨.ItemListed, .ItemListed ⟨"73", "1000", "2024-01-01T00:00:00Z"⟩⟩ rfl

/-- C2: decoding with a discriminator that has no registered variant yields
`UnknownDiscriminator`; a registered discriminator whose body cannot be parsed
(in particular one missing a required field, or carrying it at a mismatched
type, which is exactly when `getStr` is `none`) yields `MalformedPayload`
carrying that discriminator and the raw body; unknown extra fields are ignored
rather than causing failure; `decode` is total, so no single bad message is a
fatal error. -/
theorem decode_error_handling :
    (∀ d b, eventOfDiscriminator d = none →
      decode d b = .error .UnknownDiscriminator)
  ∧ (∀ d e b, eventOfDiscriminator d = some e → parsePayload e b = none →
      decode d b = .error (.MalformedPayload d b))
  ∧ (∀ e fields k, k ∈ requiredFields e → getStr fields k = none →
      parsePayload e (.obj fields) = none)
  ∧ (∀ e fields extra p, parsePayload e (.obj fields) = some p →
      parsePayload e (.obj (fields ++ extra)) = some p) := by
  refine ⟨fun d b h => ?_, fun d e b h hp => ?_, fun e fields k hk hnone => ?_,
    fun e fields extra p hp => ?_⟩
  · simp [decode, h]
  · simp [decode, h, hp]
  · cases e <;>
      simp only [requiredFields, List.mem_cons, List.not_mem_nil, or_false] at hk
    all_goals
      rcases hk with rfl | rfl | rfl <;>
        exact parse3_eq_none (by first
          | exact Or.inl hnone
          | exact Or.inr (Or.inl hnone)
          | exact Or.inr (Or.inr hnone))
  · cases e
    case All => exact Option.noConfusion hp
    all_goals
      obtain ⟨a, b, c, h₁, h₂, h₃, rfl⟩ := parse3_eq_some hp
    all_goals
      exact parse3_eq_some_of (getStr_append h₁) (getStr_append h₂) (getStr_append h₃)

/-- Witness for C2 at concrete inputs: an unregistered discriminator, a known
discriminator with a body missing required fields, a required-field failure,
and a successful parse that ignores an unknown extra field. -/
theorem decode_error_handling_witness :
    decode "order-invalidated" (.obj []) = .error .UnknownDiscriminator
  ∧ decode "item-sold" (.obj [("item_id", .str "73")])
      = .error (.MalformedPayload "item-sold" (.obj [("item_id", .str "73")]))
  ∧ parsePayload .ItemSold (.obj []) = none
  ∧ parsePayload .ItemListed
      (.obj ([("item_id", .str "73"), ("base_price", .str "1"),
        ("listing_date", .str "t")] ++ [("unknown_field", .num 0)]))
      = some (.ItemListed ⟨"73", "1", "t"⟩) :=
  ⟨decode_error_handling.1 "order-invalidated" (.obj []) rfl,
   decode_error_handling.2.1 "item-sold" .ItemSold (.obj [("item_id", .str "73")])
     rfl rfl,
   decode_error_handling.2.2.1 .ItemSold [] "sale_price" (by decide) rfl,
   decode_error_handling.2.2.2 .ItemListed
     [("item_id", .str "73"), ("base_price", .str "1"), ("listing_date", .str "t")]
     [("unknown_field", .num 0)] (.ItemListed ⟨"73", "1", "t"⟩) rfl⟩

/-- Modelled from the spec: a connection URL — scheme, host and path plus a
list of query parameters (the subset of the url library's `Url` that `client`
manipulates). -/
structure Url where
  scheme : String
  host : String
  path : String
  query : List (String × String)
deriving DecidableEq

/-- Modelled from the spec: the Network Resolver (the `From<Network> for Url`
impl of the missing `protocol.rs`): each network maps to exactly one base
endpoint URL whose scheme/host/path encode the environment, with no token
attached. -/
def Url.fromNetwork : Network → Url
  | .Mainnet => ⟨"wss", "stream.openseabeta.com", "/socket", []⟩
  | .Testnet => ⟨"wss", "testnets-stream.openseabeta.com", "/socket", []⟩

/-- Modelled from the spec: `query_pairs_mut().append_pair(key, value)` of the
url library — appends one query pair at the end. -/
def Url.append_pair (u : Url) (key value : String) : Url :=
  { u with query := u.query ++ [(key, value)] }

/-- Modelled from the spec: recognized channel-setup options of the external
transport engine (rejoin policy, buffer sizing); this layer passes them
through unmodified. -/
structure ChannelConfig where
  rejoin_after : Nat
  buffer_size : Nat
deriving DecidableEq

instance : Inhabited ChannelConfig :=
  ⟨{ rejoin_after := 0, buffer_size := 128 }⟩

/-- Modelled from the spec: the engine's channel builder, pairing a topic with
a channel configuration; `ChannelBuilder::new(topic)` carries the default
configuration. -/
structure ChannelBuilder where
  topic : Collection
  config : ChannelConfig
deriving DecidableEq

/-- Modelled from the spec: `ChannelBuilder::new` — a builder for a topic with
the engine's default channel configuration. -/
def ChannelBuilder.new (topic : Collection) : ChannelBuilder :=
  ⟨topic, default⟩

/-- Modelled from the spec: the typed registration error, distinguishing
transport-level rejection from a topic already joined with an incompatible
configuration. -/
inductive RegisterChannelError where
  | TransportRejected
  | TopicAlreadyJoined
deriving DecidableEq

/-- Modelled from the spec: a joined channel inside the engine — its accepted
configuration and the broadcast log of messages delivered on its topic. -/
structure Channel where
  config : ChannelConfig
  log : List StreamEvent
deriving DecidableEq

/-- Modelled from the spec: the engine-side connection handle — the connection
URL, the topics this transport refuses to join, and the joined channels. -/
structure SocketHandler where
  url : Url
  rejected : List Collection
  channels : List (Collection × Channel)
deriving DecidableEq

/-- Modelled from the spec: the join handle returned by a successful
registration; it owns the right to leave the topic. -/
structure ChannelHandler where
  topic : Collection
deriving DecidableEq

/-- Modelled from the spec: a consumer-side receive handle — an independent
broadcast consumer, identified by its topic and its cursor into the log. -/
structure Receiver where
  topic : Collection
  cursor : Nat
deriving DecidableEq

/-- Find the channel joined for a topic, if any. -/
def findChannel : List (Collection × Channel) → Collection → Option Channel
  | [], _ => none
  | (t, ch) :: rest, c => if t = c then some ch else findChannel rest c

/-- Modelled from the spec: the engine's join negotiation. A topic the
transport refuses is a transport-level rejection; a topic already joined with
an incompatible configuration is a registration error; rejoining with the same
configuration attaches a fresh independent receiver to the existing broadcast;
a fresh topic is joined with an empty log. -/
def SocketHandler.channel (s : SocketHandler) (b : ChannelBuilder) :
    SocketHandler × Except RegisterChannelError (ChannelHandler × Receiver) :=
  if b.topic ∈ s.rejected then (s, .error .TransportRejected)
  else
    match findChannel s.channels b.topic with
    | some ch =>
      if ch.config = b.config then
        (s, .ok (⟨b.topic⟩, ⟨b.topic, ch.log.length⟩))
      else (s, .error .TopicAlreadyJoined)
    | none =>
      ({ s with channels := s.channels ++ [(b.topic, ⟨b.config, []⟩)] },
        .ok (⟨b.topic⟩, ⟨b.topic, 0⟩))

/-- Append a delivered message to the broadcast log of its topic's channel. -/
def deliverChannels : List (Collection × Channel) → Collection → StreamEvent →
    List (Collection × Channel)
  | [], _, _ => []
  | (t, ch) :: rest, c, m =>
    if t = c then (t, ⟨ch.config, ch.log ++ [m]⟩) :: deliverChannels rest c m
    else (t, ch) :: deliverChannels rest c m

/-- Modelled from the spec: the external transport delivering a message on a
topic — the message is appended to that topic's broadcast log. -/
def SocketHandler.deliver (s : SocketHandler) (c : Collection) (m : StreamEvent) :
    SocketHandler :=
  { s with channels := deliverChannels s.channels c m }

/-- Modelled from the spec: the messages a receive handle observes, in
delivery order — the suffix of its topic's broadcast log from its cursor on. -/
def Receiver.view (r : Receiver) (s : SocketHandler) : List StreamEvent :=
  match findChannel s.channels r.topic with
  | some ch => ch.log.drop r.cursor
  | none => []

/-- Embedded from `src/lib.rs` (`client`): resolve the network to its endpoint
URL, append the `token` query parameter, and build the socket on the resulting
URL (`SocketBuilder::new(url).build()`, modelled as a fresh handle with no
joined channels). -/
def client (network : Network) (tok : String) : SocketHandler :=
  { url := (Url.fromNetwork network).append_pair "token" tok,
    rejected := [], channels := [] }

/-- Embedded from `src/lib.rs` (`subscribe_to`): subscribe to all the events of
a particular collection by registering a channel built for it
(`socket.channel(ChannelBuilder::new(collection))`). -/
def subscribe_to (socket : SocketHandler) (collection : Collection) :
    SocketHandler × Except RegisterChannelError (ChannelHandler × Receiver) :=
  socket.channel (ChannelBuilder.new collection)

/-- Embedded from `src/lib.rs` (`subscribe_to_with_config`): subscribe using a
caller-supplied channel builder, handed to the engine's registration
unmodified (`socket.channel(channel_builder)`). -/
def subscribe_to_with_config (socket : SocketHandler)
    (channel_builder : ChannelBuilder) :
    SocketHandler × Except RegisterChannelError (ChannelHandler × Receiver) :=
  socket.channel channel_builder

/-- Registration either succeeds, or returns one of the two typed errors while
leaving the connection state untouched. -/
theorem channel_cases (s : SocketHandler) (b : ChannelBuilder) :
    (∃ hr s', s.channel b = (s', .ok hr))
  ∨ s.channel b = (s, .error .TransportRejected)
  ∨ s.channel b = (s, .error .TopicAlreadyJoined) := by
  unfold SocketHandler.channel
  split
  · exact Or.inr (Or.inl rfl)
  · split
    · split
      · exact Or.inl ⟨_, _, rfl⟩
      · exact Or.inr (Or.inr rfl)
    · exact Or.inl ⟨_, _, rfl⟩

/-- C5: for every connection and target, `subscribe_to` either succeeds with a
join handle and a receive handle, or surfaces a typed registration error to
the immediate caller that distinguishes transport-level rejection from a
topic already joined with an incompatible configuration; a join failure is
returned as-is with the connection state untouched — never swallowed, never
retried by this layer. -/
theorem subscribe_to_error_surface (socket : SocketHandler) (collection : Collection) :
    ((∃ hr, (subscribe_to socket collection).2 = .ok hr)
      ∨ (subscribe_to socket collection).2 = .error .TransportRejected
      ∨ (subscribe_to socket collection).2 = .error .TopicAlreadyJoined)
  ∧ (∀ e, (subscribe_to socket collection).2 = .error e →
      (subscribe_to socket collection).1 = socket)
  ∧ RegisterChannelError.TransportRejected ≠ RegisterChannelError.TopicAlreadyJoined := by
  refine ⟨?_, ?_, by decide⟩
  · rcases channel_cases socket (ChannelBuilder.new collection) with ⟨hr, s', h⟩ | h | h
    · exact Or.inl ⟨hr, by rw [subscribe_to, h]⟩
    · exact Or.inr (Or.inl (by rw [subscribe_to, h]))
    · exact Or.inr (Or.inr (by rw [subscribe_to, h]))
  · intro e he
    rcases channel_cases socket (ChannelBuilder.new collection) with ⟨hr, s', h⟩ | h | h <;>
      rw [subscribe_to, h] at he ⊢ <;>
      exact Except.noConfusion he

/-- Witness for C5: a transport-rejected join is surfaced as an error and
leaves the connection untouched. -/
theorem subscribe_to_error_surface_witness :
    (subscribe_to ⟨⟨"wss", "h", "/", []⟩, [Collection.All], []⟩ Collection.All).1
      = ⟨⟨"wss", "h", "/", []⟩, [Collection.All], []⟩ :=
  (subscribe_to_error_surface ⟨⟨"wss", "h", "/", []⟩, [Collection.All], []⟩
    Collection.All).2.1 .TransportRejected rfl

/-- C6: for every network and API key, client construction appends the token
as a query parameter exactly once, after resolving the network to its endpoint
URL and before the connection attempt: the connection URL's query is the
resolver's output query extended by the token pair, and it contains exactly
one `token` parameter. -/
theorem client_appends_token_once (network : Network) (key : String) :
    (client network key).url.query
      = (Url.fromNetwork network).query ++ [("token", key)]
  ∧ (client network key).url.query.countP (fun p => p.1 == "token") = 1 := by
  cases network <;> exact ⟨rfl, rfl⟩

/-- C8: network resolution is pure and total: each of the two network values is
mapped (totality of the resolver), each to exactly one well-formed endpoint
URL — secure-websocket scheme, nonempty host and path — with no token or other
query attached by the resolver itself, and the two environments resolve to
distinct URLs. -/
theorem resolve_pure_total :
    (∀ network : Network,
        (Url.fromNetwork network).scheme = "wss"
      ∧ (Url.fromNetwork network).host ≠ ""
      ∧ (Url.fromNetwork network).path ≠ ""
      ∧ (Url.fromNetwork network).query = [])
  ∧ Url.fromNetwork .Mainnet ≠ Url.fromNetwork .Testnet := by
  decide

/-- C10: `subscribe_to` is exactly the default-configuration special case of
`subscribe_to_with_config`: for every socket and collection it agrees with
`subscribe_to_with_config` on the builder freshly made for that target with
the default configuration, and `subscribe_to_with_config` hands any
caller-supplied builder to the engine's registration unmodified. -/
theorem subscribe_to_refines_with_config
    (socket : SocketHandler) (collection : Collection) :
    subscribe_to socket collection
      = subscribe_to_with_config socket (ChannelBuilder.new collection)
  ∧ ∀ b : ChannelBuilder, subscribe_to_with_config socket b = socket.channel b :=
  ⟨rfl, fun _ => rfl⟩

/-- A topic with no joined channel is found after the engine appends its fresh
channel at the end of the channel list. -/
theorem findChannel_append_self {l : List (Collection × Channel)} {c : Collection}
    (h : findChannel l c = none) (ch : Channel) :
    findChannel (l ++ [(c, ch)]) c = some ch := by
  induction l with
  | nil => simp [findChannel]
  | cons p rest ih =>
    obtain ⟨t, ch'⟩ := p
    by_cases ht : t = c
    · subst ht; simp [findChannel] at h
    · simp only [List.cons_append, findChannel, if_neg ht] at h ⊢
      exact ih h

/-- Delivering a message on a topic appends it to exactly that topic's log. -/
theorem findChannel_deliver (l : List (Collection × Channel)) (c : Collection)
    (m : StreamEvent) :
    findChannel (deliverChannels l c m) c
      = (findChannel l c).map (fun ch => ⟨ch.config, ch.log ++ [m]⟩) := by
  induction l with
  | nil => rfl
  | cons p rest ih =>
    obtain ⟨t, ch⟩ := p
    by_cases ht : t = c
    · subst ht; simp [deliverChannels, findChannel]
    · simp [deliverChannels, findChannel, ht, ih]

/-- C7: when `subscribe_to` has succeeded on a target, subscribing a second
time to the same target on the same connection is permitted (it succeeds, with
unchanged connection state), yields a receive handle on the same topic's
underlying channel, and when the transport then delivers a message on that
topic both receive handles observe it and observe identical message
sequences — hence any two messages appear in the same relative order for
both. -/
theorem subscribe_to_twice_same_channel (s₀ s₁ : SocketHandler) (c : Collection)
    (jh₁ : ChannelHandler) (r₁ : Receiver)
    (h₁ : subscribe_to s₀ c = (s₁, .ok (jh₁, r₁))) :
    ∃ jh₂ r₂, subscribe_to s₁ c = (s₁, .ok (jh₂, r₂))
      ∧ r₂.topic = r₁.topic
      ∧ ∀ m, m ∈ r₁.view (s₁.deliver c m)
          ∧ r₁.view (s₁.deliver c m) = r₂.view (s₁.deliver c m) := by
  unfold subscribe_to SocketHandler.channel ChannelBuilder.new at h₁
  dsimp only at h₁
  split at h₁
  · exact Except.noConfusion (congrArg Prod.snd h₁)
  next hrej =>
    split at h₁
    next ch hfind =>
      split at h₁
      next hcfg =>
        have hs : s₀ = s₁ := congrArg Prod.fst h₁
        subst hs
        have hr : r₁ = ⟨c, ch.log.length⟩ :=
          (congrArg Prod.snd (Except.ok.inj (congrArg Prod.snd h₁))).symm
        subst hr
        refine ⟨⟨c⟩, ⟨c, ch.log.length⟩, ?_, rfl, fun m => ⟨?_, rfl⟩⟩
        · simp [subscribe_to, SocketHandler.channel, ChannelBuilder.new,
            hrej, hfind, hcfg]
        · simp [Receiver.view, SocketHandler.deliver, findChannel_deliver,
            hfind, List.drop_left]
      next => exact Except.noConfusion (congrArg Prod.snd h₁)
    next hfind =>
      have hs : ({ s₀ with
          channels := s₀.channels ++ [(c, ⟨default, []⟩)] } : SocketHandler) = s₁ :=
        congrArg Prod.fst h₁
      subst hs
      have hr : r₁ = ⟨c, 0⟩ :=
        (congrArg Prod.snd (Except.ok.inj (congrArg Prod.snd h₁))).symm
      subst hr
      refine ⟨⟨c⟩, ⟨c, 0⟩, ?_, rfl, fun m => ⟨?_, rfl⟩⟩
      · simp [subscribe_to, SocketHandler.channel, ChannelBuilder.new,
          hrej, findChannel_append_self hfind]
      · simp [Receiver.view, SocketHandler.deliver, findChannel_deliver,
          findChannel_append_self hfind]

/-- Witness for C7: a concrete connection on which a first subscription to the
market-wide target succeeded. -/
theorem subscribe_to_twice_same_channel_witness :
    ∃ jh₂ r₂,
      subscribe_to
          ⟨⟨"wss", "h", "/", []⟩, [], [(Collection.All, ⟨⟨0, 128⟩, []⟩)]⟩
          Collection.All
        = (⟨⟨"wss", "h", "/", []⟩, [], [(Collection.All, ⟨⟨0, 128⟩, []⟩)]⟩,
            .ok (jh₂, r₂))
      ∧ r₂.topic = Collection.All
      ∧ ∀ m, m ∈ Receiver.view ⟨Collection.All, 0⟩
              (SocketHandler.deliver
                ⟨⟨"wss", "h", "/", []⟩, [], [(Collection.All, ⟨⟨0, 128⟩, []⟩)]⟩
                Collection.All m)
          ∧ Receiver.view ⟨Collection.All, 0⟩
              (SocketHandler.deliver
                ⟨⟨"wss", "h", "/", []⟩, [], [(Collection.All, ⟨⟨0, 128⟩, []⟩)]⟩
                Collection.All m)
            = Receiver.view r₂
              (SocketHandler.deliver
                ⟨⟨"wss", "h", "/", []⟩, [], [(Collection.All, ⟨⟨0, 128⟩, []⟩)]⟩
                Collection.All m) :=
  subscribe_to_twice_same_channel
    ⟨⟨"wss", "h", "/", []⟩, [], []⟩
    ⟨⟨"wss", "h", "/", []⟩, [], [(Collection.All, ⟨⟨0, 128⟩, []⟩)]⟩
    Collection.All ⟨Collection.All⟩ ⟨Collection.All, 0⟩ rfl
